import Mathlib

/-!
Shallow embedding of `src/rdapi.py`, the Real-Debrid REST API client.

The client is a single class `RD` holding an API token, a base URL, an
`Authorization` header and an error-code table, together with four generic
HTTP operations (`get`, `post`, `put`, `delete`), a shared response
`handler`, and one nested class per resource group whose methods are thin
pass-throughs to the generic operations.

Modelling choices:
* JSON values are the inductive `Json`; a response body is `Option Json`
  (`none` models a body that is not valid JSON, on which `.json()` raises).
* The network is an explicit parameter `net : HttpRequest → NetOutcome`:
  `requests.get`/`post`/`put`/`delete` either return a response or raise a
  connection error / timeout.  An operation returns the request it issued
  together with an `Except` describing either a propagated exception or the
  returned value, the log entries emitted, and the client state afterwards.
* Python `logging.error` calls become structured `LogEntry` values.
* The bundled `error_codes.json` file is not part of the sources; its
  decoded content is a parameter of `RD.init` (a dictionary, i.e. an
  association list from decoded-JSON keys to message strings).
-/

inductive Json where
  | null : Json
  | bool (b : Bool) : Json
  | num (n : Int) : Json
  | str (s : String) : Json
  | arr (elems : List Json) : Json
  | obj (fields : List (String × Json)) : Json

/-- Key lookup in a decoded JSON object, as Python `dict` indexing does
(first binding wins; `json.load` keeps a single binding per key). -/
def lookupField (fields : List (String × Json)) (key : String) : Option Json :=
  match fields with
  | [] => none
  | (k, v) :: rest => if k = key then some v else lookupField rest key

/-- Lookup in a string-keyed association list (used for HTTP headers and
for the error-code dictionary, whose keys are strings because they come
from a decoded JSON object). -/
def lookupStr (table : List (String × String)) (key : String) : Option String :=
  match table with
  | [] => none
  | (k, v) :: rest => if k = key then some v else lookupStr rest key

/-- Model of `self.error_codes.get(code, default)`: `self.error_codes` is a
string-keyed dict (decoded from `error_codes.json`, a JSON object), while
`code` is an arbitrary decoded JSON value.  A string key can hit the
table; `None`, booleans and numbers are hashable but can never equal a
string key, so they miss; a decoded list or dict is unhashable, so `.get`
raises `TypeError`. -/
def dictGetJson (table : List (String × String)) (code : Json) :
    Except Unit (Option String) :=
  match code with
  | .str s => .ok (lookupStr table s)
  | .null => .ok none
  | .bool _ => .ok none
  | .num _ => .ok none
  | .arr _ => .error ()
  | .obj _ => .error ()

/-- Test that `needle` starts `hay` (character lists). -/
def charsStarts : List Char → List Char → Bool
  | [], _ => true
  | _ :: _, [] => false
  | a :: as, b :: bs => a == b && charsStarts as bs

/-- Test that `needle` occurs as a contiguous substring of `hay`: Python `in` on
strings. -/
def charsSub (needle : List Char) : List Char → Bool
  | [] => charsStarts needle []
  | hay@(_ :: rest) => charsStarts needle hay || charsSub needle rest

/-- Model of Python `key in lst` for a decoded JSON list: `==` against each element;
a string key can only equal a string element. -/
def jsonListHasStr : List Json → String → Bool
  | [], _ => false
  | .str t :: rest, s => t == s || jsonListHasStr rest s
  | _ :: rest, s => jsonListHasStr rest s

/-- Model of Python `key in value` on a decoded JSON value: key membership for a
dict, element membership for a list, substring for a string; `in` raises
`TypeError` on None/bool/int. -/
def jsonContainsKey : Json → String → Except Unit Bool
  | .obj fields, key => .ok (lookupField fields key).isSome
  | .arr elems, key => .ok (jsonListHasStr elems key)
  | .str s, key => .ok (charsSub key.data s.data)
  | _, _ => .error ()

/-- Model of Python `value[key]` on a decoded JSON value: raises `KeyError` for a
missing dict key and `TypeError` on every non-dict value. -/
def jsonSubscript : Json → String → Except Unit Json
  | .obj fields, key =>
    match lookupField fields key with
    | some v => .ok v
    | none => .error ()
  | _, _ => .error ()

/-- An HTTP response: raw status code and decoded body (`none` when the
body is not valid JSON). -/
structure Response where
  status : Nat
  body : Option Json

/-- Model of `response.json()`: returns the decoded body or raises a decode error. -/
def Response.json (r : Response) : Except Unit Json :=
  match r.body with
  | some j => .ok j
  | none => .error ()

/-- Predicate for `response.raise_for_status()`: it raises `requests.exceptions.HTTPError`
exactly for 4xx and 5xx status codes. -/
def raiseForStatusHttpError (status : Nat) : Bool :=
  (400 ≤ status && status < 500) || (500 ≤ status && status < 600)

/-- One `logging.error` call made by the client, as a structured value. -/
inductive LogEntry where
  | httpError (status : Nat)
  | errorCode (code : Json) (message : String)
  | handlingError

/-- The configuration state an `RD` instance holds after `__init__`. -/
structure RDState where
  rd_apitoken : String
  base_url : String
  header : List (String × String)
  error_codes : List (String × String)

/-- Model of `RD.__init__`: takes the explicit `api_token` argument, the value of
the `RD_APITOKEN` environment variable, and the decoded content of the
bundled `error_codes.json` file; fails with `ValueError` when the resolved
token is missing or empty. -/
def RD.init (api_token : Option String) (envToken : Option String)
    (errorCodesFile : List (String × String)) : Except String RDState :=
  let tok : Option String :=
    match api_token with
    | none => envToken
    | some t => some t
  match tok with
  | none => .error "API Token is empty, please provide a valid token."
  | some t =>
    if t = "" then .error "API Token is empty, please provide a valid token."
    else .ok {
      rd_apitoken := t
      base_url := "https://api.real-debrid.com/rest/1.0"
      header := [("Authorization", "Bearer " ++ t)]
      error_codes := errorCodesFile }

/-- The request a call to `requests.get`/`post`/`put`/`delete` issues:
method, full URL, headers, query parameters, form data, and the path of a
streamed file body for `put`. -/
structure HttpRequest where
  method : String
  url : String
  headers : List (String × String)
  params : List (String × Option String)
  data : List (String × Option String)
  fileBody : Option String

/-- What the network does with an issued request: return a response, or
raise `requests.exceptions.ConnectionError` / `Timeout`. -/
inductive NetOutcome where
  | ok (response : Response)
  | connectionError
  | timeout

/-- A network exception propagating out of a `requests.*` call. -/
inductive NetExc where
  | connectionError
  | timeout
deriving DecidableEq

/-- An exception propagating out of a resource-group method: a network
exception, or a JSON decode error from `.json()`. -/
inductive Exc where
  | net (e : NetExc)
  | jsonDecode
deriving DecidableEq

/-- Model of `RD.handler`: logs an HTTP error for a 4xx/5xx status (the
`ConnectionError`/`Timeout`/`RequestException` branches are unreachable
because `raise_for_status` only raises `HTTPError`); then, in a second
`try` block, decodes the body, checks it for an `'error_code'` field, and
resolves the code through the error-code table with default
`'Unknown Error'` — any exception in that block is caught and logged; the
response is returned unchanged. -/
def RD.handler (st : RDState) (request : Response) :
    RDState × List LogEntry × Response :=
  let logsStatus : List LogEntry :=
    if raiseForStatusHttpError request.status then
      [LogEntry.httpError request.status]
    else []
  let inspect : Except Unit (List LogEntry) := do
    let decoded ← Response.json request
    let isMember ← jsonContainsKey decoded "error_code"
    if isMember then
      let decodedAgain ← Response.json request
      let code ← jsonSubscript decodedAgain "error_code"
      let found ← dictGetJson st.error_codes code
      let errorMessage := found.getD "Unknown Error"
      pure [LogEntry.errorCode code errorMessage]
    else
      pure []
  let logsInspect : List LogEntry :=
    match inspect with
    | .ok logs => logs
    | .error _ => [LogEntry.handlingError]
  (st, logsStatus ++ logsInspect, request)

/-- Model of `RD.get`: issues a GET with the client headers and the keyword
arguments as query parameters; a response goes through `handler`, while a
`ConnectionError`/`Timeout` raised by `requests.get` propagates (the call
happens before `handler` is entered). -/
def RD.get (st : RDState) (path : String)
    (options : List (String × Option String))
    (net : HttpRequest → NetOutcome) :
    HttpRequest × Except NetExc (RDState × List LogEntry × Response) :=
  let request : HttpRequest :=
    { method := "GET", url := st.base_url ++ path, headers := st.header,
      params := options, data := [], fileBody := none }
  (request,
    match net request with
    | .ok r => .ok (RD.handler st r)
    | .connectionError => .error NetExc.connectionError
    | .timeout => .error NetExc.timeout)

/-- Model of `RD.post`: issues a POST with the keyword arguments as form data. -/
def RD.post (st : RDState) (path : String)
    (payload : List (String × Option String))
    (net : HttpRequest → NetOutcome) :
    HttpRequest × Except NetExc (RDState × List LogEntry × Response) :=
  let request : HttpRequest :=
    { method := "POST", url := st.base_url ++ path, headers := st.header,
      params := [], data := payload, fileBody := none }
  (request,
    match net request with
    | .ok r => .ok (RD.handler st r)
    | .connectionError => .error NetExc.connectionError
    | .timeout => .error NetExc.timeout)

/-- Model of `RD.put`: streams the file at `filepath` as the body and sends the
keyword arguments as query parameters. -/
def RD.put (st : RDState) (path : String) (filepath : String)
    (payload : List (String × Option String))
    (net : HttpRequest → NetOutcome) :
    HttpRequest × Except NetExc (RDState × List LogEntry × Response) :=
  let request : HttpRequest :=
    { method := "PUT", url := st.base_url ++ path, headers := st.header,
      params := payload, data := [], fileBody := some filepath }
  (request,
    match net request with
    | .ok r => .ok (RD.handler st r)
    | .connectionError => .error NetExc.connectionError
    | .timeout => .error NetExc.timeout)

/-- Model of `RD.delete`: issues a DELETE with the client headers only. -/
def RD.delete (st : RDState) (path : String)
    (net : HttpRequest → NetOutcome) :
    HttpRequest × Except NetExc (RDState × List LogEntry × Response) :=
  let request : HttpRequest :=
    { method := "DELETE", url := st.base_url ++ path, headers := st.header,
      params := [], data := [], fileBody := none }
  (request,
    match net request with
    | .ok r => .ok (RD.handler st r)
    | .connectionError => .error NetExc.connectionError
    | .timeout => .error NetExc.timeout)

/-- The `.json()` call several resource-group methods append to the result
of a generic operation: a propagated network exception stays an exception,
and a response whose body is not valid JSON raises a decode error. -/
def decodeResult
    (call : HttpRequest × Except NetExc (RDState × List LogEntry × Response)) :
    HttpRequest × Except Exc (RDState × List LogEntry × Json) :=
  (call.1,
    match call.2 with
    | .error e => .error (Exc.net e)
    | .ok (st, logs, r) =>
      match Response.json r with
      | .ok j => .ok (st, logs, j)
      | .error _ => .error Exc.jsonDecode)

/-! Resource-group methods.  Each nested class holds a reference `self.rd`
to the client; here that reference is the explicit `st` argument, and the
network parameter `net` is threaded to the generic operation.  Optional
Python parameters (default `None`) become optional Lean arguments with
default `none`. -/

def RD.System.disable_token (st : RDState) (net : HttpRequest → NetOutcome) :=
  RD.get st "/disable_access_token" [] net

def RD.System.time (st : RDState) (net : HttpRequest → NetOutcome) :=
  RD.get st "/time" [] net

def RD.System.iso_time (st : RDState) (net : HttpRequest → NetOutcome) :=
  RD.get st "/time/iso" [] net

def RD.User.get (st : RDState) (net : HttpRequest → NetOutcome) :=
  decodeResult (RD.get st "/user" [] net)

def RD.Unrestrict.check (st : RDState) (net : HttpRequest → NetOutcome)
    (link : String) (password : Option String := none) :=
  decodeResult (RD.post st "/unrestrict/check"
    [("link", some link), ("password", password)] net)

def RD.Unrestrict.link (st : RDState) (net : HttpRequest → NetOutcome)
    (link : String) (password : Option String := none)
    (remote : Option String := none) :=
  decodeResult (RD.post st "/unrestrict/link"
    [("link", some link), ("password", password), ("remote", remote)] net)

def RD.Unrestrict.folder (st : RDState) (net : HttpRequest → NetOutcome)
    (link : String) :=
  RD.post st "/unrestrict/folder" [("link", some link)] net

def RD.Unrestrict.container_file (st : RDState) (net : HttpRequest → NetOutcome)
    (filepath : String) :=
  RD.put st "/unrestrict/containerFile" filepath [] net

def RD.Unrestrict.container_link (st : RDState) (net : HttpRequest → NetOutcome)
    (link : String) :=
  RD.post st "/unrestrict/containerLink" [("link", some link)] net

def RD.Traffic.get (st : RDState) (net : HttpRequest → NetOutcome) :=
  decodeResult (RD.get st "/traffic" [] net)

def RD.Traffic.details (st : RDState) (net : HttpRequest → NetOutcome)
    (start : Option String := none) (endDate : Option String := none) :=
  decodeResult (RD.get st "/traffic/details"
    [("start", start), ("end", endDate)] net)

def RD.Streaming.transcode (st : RDState) (net : HttpRequest → NetOutcome)
    (id : String) :=
  decodeResult (RD.get st ("/streaming/transcode/" ++ id) [] net)

def RD.Streaming.media_info (st : RDState) (net : HttpRequest → NetOutcome)
    (id : String) :=
  decodeResult (RD.get st ("/streaming/mediaInfos/" ++ id) [] net)

def RD.Downloads.get (st : RDState) (net : HttpRequest → NetOutcome)
    (offset : Option String := none) (page : Option String := none)
    (limit : Option String := none) :=
  RD.get st "/downloads"
    [("offset", offset), ("page", page), ("limit", limit)] net

def RD.Downloads.delete (st : RDState) (net : HttpRequest → NetOutcome)
    (id : String) :=
  RD.delete st ("/downloads/delete/" ++ id) net

def RD.Torrents.get (st : RDState) (net : HttpRequest → NetOutcome)
    (offset : Option String := none) (page : Option String := none)
    (limit : Option String := none) (filter : Option String := none) :=
  RD.get st "/torrents"
    [("offset", offset), ("page", page), ("limit", limit), ("filter", filter)]
    net

def RD.Torrents.info (st : RDState) (net : HttpRequest → NetOutcome)
    (id : String) :=
  RD.get st ("/torrents/info/" ++ id) [] net

def RD.Torrents.instant_availability (st : RDState)
    (net : HttpRequest → NetOutcome) (hash : String) :=
  RD.get st ("/torrents/instantAvailability/" ++ hash) [] net

def RD.Torrents.active_count (st : RDState) (net : HttpRequest → NetOutcome) :=
  RD.get st "/torrents/activeCount" [] net

def RD.Torrents.available_hosts (st : RDState) (net : HttpRequest → NetOutcome) :=
  RD.get st "/torrents/availableHosts" [] net

def RD.Torrents.add_file (st : RDState) (net : HttpRequest → NetOutcome)
    (filepath : String) (host : Option String := none) :=
  RD.put st "/torrents/addTorrent" filepath [("host", host)] net

def RD.Torrents.add_magnet (st : RDState) (net : HttpRequest → NetOutcome)
    (magnet : String) (host : Option String := none) :=
  let magnet_link := "magnet:?xt=urn:btih:" ++ magnet
  RD.post st "/torrents/addMagnet"
    [("magnet", some magnet_link), ("host", host)] net

def RD.Torrents.select_files (st : RDState) (net : HttpRequest → NetOutcome)
    (id : String) (files : String) :=
  RD.post st ("/torrents/selectFiles/" ++ id) [("files", some files)] net

def RD.Torrents.delete (st : RDState) (net : HttpRequest → NetOutcome)
    (id : String) :=
  RD.delete st ("/torrents/delete/" ++ id) net

def RD.Hosts.get (st : RDState) (net : HttpRequest → NetOutcome) :=
  RD.get st "/hosts" [] net

def RD.Hosts.status (st : RDState) (net : HttpRequest → NetOutcome) :=
  RD.get st "/hosts/status" [] net

def RD.Hosts.regex (st : RDState) (net : HttpRequest → NetOutcome) :=
  RD.get st "/hosts/regex" [] net

def RD.Hosts.regex_folder (st : RDState) (net : HttpRequest → NetOutcome) :=
  RD.get st "/hosts/regexFolder" [] net

def RD.Hosts.domains (st : RDState) (net : HttpRequest → NetOutcome) :=
  RD.get st "/hosts/domains" [] net

def RD.Settings.get (st : RDState) (net : HttpRequest → NetOutcome) :=
  RD.get st "/settings" [] net

def RD.Settings.update (st : RDState) (net : HttpRequest → NetOutcome)
    (setting_name : String) (setting_value : String) :=
  RD.post st "/settings/update"
    [("setting_name", some setting_name), ("setting_value", some setting_value)]
    net

def RD.Settings.convert_points (st : RDState) (net : HttpRequest → NetOutcome) :=
  RD.post st "/settings/convertPoints" [] net

def RD.Settings.change_password (st : RDState) (net : HttpRequest → NetOutcome) :=
  RD.post st "/settings/changePassword" [] net

def RD.Settings.avatar_file (st : RDState) (net : HttpRequest → NetOutcome)
    (filepath : String) :=
  RD.put st "/settings/avatarFile" filepath [] net

def RD.Settings.avatar_delete (st : RDState) (net : HttpRequest → NetOutcome) :=
  RD.delete st "/settings/avatarDelete" net

/-- The client state observable after a call: the state carried in a
returned value, or the unchanged state when an exception propagated (a
propagating exception performs no assignment either). -/
def stateAfter {ε ρ : Type} (st : RDState)
    (outcome : Except ε (RDState × List LogEntry × ρ)) : RDState :=
  match outcome with
  | .ok (st', _, _) => st'
  | .error _ => st

/-- A concrete error-code table, standing for a decoded `error_codes.json`
(string keys, since JSON object keys are strings). -/
def exampleTable : List (String × String) :=
  [("8", "Token expired"), ("9", "Permission denied")]

/-- A concrete client state, as produced by a successful `RD.__init__`
with token `"secrettoken"` and table `exampleTable`. -/
def exampleState : RDState :=
  { rd_apitoken := "secrettoken"
    base_url := "https://api.real-debrid.com/rest/1.0"
    header := [("Authorization", "Bearer secrettoken")]
    error_codes := exampleTable }

/-! ### Helper lemmas -/

theorem RD.init_ok_state (tok env : Option String)
    (table : List (String × String)) (st : RDState)
    (h : RD.init tok env table = Except.ok st) :
    st.base_url = "https://api.real-debrid.com/rest/1.0" ∧
    st.header = [("Authorization", "Bearer " ++ st.rd_apitoken)] ∧
    st.error_codes = table := by
  cases tok with
  | none =>
    cases env with
    | none => simp [RD.init] at h
    | some t =>
      by_cases ht : t = "" <;> simp [RD.init, ht] at h
      subst h
      simp
  | some t =>
    by_cases ht : t = "" <;> simp [RD.init, ht] at h
    subst h
    simp

theorem handler_response_component (st : RDState) (r : Response) :
    (RD.handler st r).2.2 = r := rfl

theorem stateAfter_net (st : RDState) (o : NetOutcome) :
    stateAfter st (match o with
      | .ok r => Except.ok (RD.handler st r)
      | .connectionError => Except.error NetExc.connectionError
      | .timeout => Except.error NetExc.timeout) = st := by
  cases o <;> rfl

theorem stateAfter_get (st : RDState) (path : String)
    (options : List (String × Option String)) (net : HttpRequest → NetOutcome) :
    stateAfter st (RD.get st path options net).2 = st :=
  stateAfter_net st (net _)

theorem stateAfter_post (st : RDState) (path : String)
    (payload : List (String × Option String)) (net : HttpRequest → NetOutcome) :
    stateAfter st (RD.post st path payload net).2 = st :=
  stateAfter_net st (net _)

theorem stateAfter_put (st : RDState) (path filepath : String)
    (payload : List (String × Option String)) (net : HttpRequest → NetOutcome) :
    stateAfter st (RD.put st path filepath payload net).2 = st :=
  stateAfter_net st (net _)

theorem stateAfter_delete (st : RDState) (path : String)
    (net : HttpRequest → NetOutcome) :
    stateAfter st (RD.delete st path net).2 = st :=
  stateAfter_net st (net _)

theorem stateAfter_decode (st : RDState)
    (call : HttpRequest × Except NetExc (RDState × List LogEntry × Response))
    (h : stateAfter st call.2 = st) :
    stateAfter st (decodeResult call).2 = st := by
  rcases call with ⟨req, outcome⟩
  cases outcome with
  | error e => rfl
  | ok v =>
    obtain ⟨st', logs, r⟩ := v
    cases hr : r.body with
    | none => simp [decodeResult, Response.json, hr, stateAfter]
    | some j =>
      simp [decodeResult, Response.json, hr, stateAfter] at h ⊢
      exact h

/-! ### Claims -/

/-- C1, counterexample: the claim says that for every response whose JSON
body contains an `'error_code'` field with a code absent from the table,
the reported message is exactly `'Unknown Error'`.  For the body
`{"error_code": []}` the decoded code `[]` is not in the table, yet
`self.error_codes.get([], 'Unknown Error')` raises
`TypeError: unhashable type` — caught by the blanket `except`, which logs
the generic handling-error message: no `Error <code>: Unknown Error`
message is ever reported. -/
theorem handler_error_code_unhashable_counterexample :
    (RD.handler exampleState
      { status := 200, body := some (Json.obj [("error_code", Json.arr [])]) }).2.1
      = [LogEntry.handlingError]
    ∧ LogEntry.errorCode (Json.arr []) "Unknown Error"
        ∉ (RD.handler exampleState
            { status := 200,
              body := some (Json.obj [("error_code", Json.arr [])]) }).2.1 := by
  constructor
  · rfl
  · intro hmem
    have h : (RD.handler exampleState
        { status := 200,
          body := some (Json.obj [("error_code", Json.arr [])]) }).2.1
        = [LogEntry.handlingError] := rfl
    rw [h] at hmem
    simp at hmem

/-- C1 (amended): for every response whose JSON body is an object with an
`'error_code'` field whose value is a hashable JSON value (that is,
`dict.get` on it succeeds, which holds exactly for null/boolean/number/
string codes), the handler logs `Error <code>: <message>` where the
message is the table entry when the lookup hits (`found = some m`) and
exactly `"Unknown Error"` when the code is absent from the table
(`found = none`); codes that are JSON arrays or objects instead make the
lookup raise, which the blanket `except` turns into a generic
handling-error log. -/
theorem handler_reports_mapped_or_unknown_message (st : RDState) (r : Response)
    (fields : List (String × Json)) (code : Json) (found : Option String)
    (hbody : r.body = some (Json.obj fields))
    (hcode : lookupField fields "error_code" = some code)
    (hget : dictGetJson st.error_codes code = Except.ok found) :
    (RD.handler st r).2.1 =
      (if raiseForStatusHttpError r.status then [LogEntry.httpError r.status]
       else [])
      ++ [LogEntry.errorCode code (found.getD "Unknown Error")] := by
  simp [RD.handler, Response.json, hbody, jsonContainsKey, hcode, jsonSubscript,
    hget, Bind.bind, Except.bind, Functor.map, Except.map, Pure.pure, Except.pure]

/-- C1, witness: a 200 response with body `{"error_code": "8"}` against a
table mapping `"8"` to `"Token expired"` makes the handler report exactly
that table message. -/
theorem handler_reports_mapped_or_unknown_message_witness :
    dictGetJson exampleState.error_codes (Json.str "8")
      = Except.ok (some "Token expired")
    ∧ (RD.handler exampleState
        { status := 200, body := some (Json.obj [("error_code", Json.str "8")]) }).2.1
      = [LogEntry.errorCode (Json.str "8") "Token expired"] := by
  refine ⟨rfl, ?_⟩
  have h := handler_reports_mapped_or_unknown_message exampleState
    { status := 200, body := some (Json.obj [("error_code", Json.str "8")]) }
    [("error_code", Json.str "8")] (Json.str "8") (some "Token expired")
    rfl rfl rfl
  simpa [raiseForStatusHttpError] using h

/-- C2: evaluation of the code at the failing input.  The claim says no
exception propagates out of `RD.get`/`post`/`put`/`delete`/`handler` on a
connection error or timeout, but `requests.get(...)` raises before
`handler` is ever entered (the `ConnectionError`/`Timeout` branches of the
`try` in `handler` wrap only `raise_for_status`, which raises `HTTPError`
alone), so the exception escapes the request layer and no response object
is returned. -/
theorem connection_error_escapes_request_layer :
    (RD.get exampleState "/downloads" []
        (fun _ => NetOutcome.connectionError)).2
      = Except.error NetExc.connectionError
    ∧ (RD.post exampleState "/unrestrict/check"
        [("link", some "http://a"), ("password", none)]
        (fun _ => NetOutcome.timeout)).2
      = Except.error NetExc.timeout :=
  ⟨rfl, rfl⟩

/-- C3: constructing the client with a missing token (no argument and no
environment variable) or an empty-string token (given directly, or read
from the environment) fails with the `ValueError` message, while any
non-empty token string succeeds and is stored in `rd_apitoken`, whether
passed explicitly or read from the environment. -/
theorem init_token_validation (env : Option String)
    (table : List (String × String)) :
    (RD.init none none table
        = Except.error "API Token is empty, please provide a valid token.")
    ∧ (RD.init (some "") env table
        = Except.error "API Token is empty, please provide a valid token.")
    ∧ (RD.init none (some "") table
        = Except.error "API Token is empty, please provide a valid token.")
    ∧ (∀ t : String, t ≠ "" →
        RD.init (some t) env table = Except.ok
          { rd_apitoken := t,
            base_url := "https://api.real-debrid.com/rest/1.0",
            header := [("Authorization", "Bearer " ++ t)],
            error_codes := table }
        ∧ RD.init none (some t) table = Except.ok
          { rd_apitoken := t,
            base_url := "https://api.real-debrid.com/rest/1.0",
            header := [("Authorization", "Bearer " ++ t)],
            error_codes := table }) := by
  refine ⟨rfl, rfl, rfl, ?_⟩
  intro t ht
  constructor <;> simp [RD.init, ht]

/-- C3, witness: the non-empty token `"abc"` constructs successfully and
is stored. -/
theorem init_token_validation_witness :
    ("abc" : String) ≠ ""
    ∧ RD.init (some "abc") none exampleTable = Except.ok
        { rd_apitoken := "abc",
          base_url := "https://api.real-debrid.com/rest/1.0",
          header := [("Authorization", "Bearer " ++ "abc")],
          error_codes := exampleTable } :=
  ⟨by decide, ((init_token_validation none exampleTable).2.2.2 "abc" (by decide)).1⟩

/-- C4: for a client state built by a successful `RD.__init__`, every
request issued by `RD.get`, `RD.post`, `RD.put` and `RD.delete` carries an
`Authorization` header whose value is exactly `"Bearer "` followed by the
stored token. -/
theorem authorization_header_always_bearer (tok env : Option String)
    (table : List (String × String)) (st : RDState)
    (hinit : RD.init tok env table = Except.ok st) :
    ∀ (path filepath : String) (options payload : List (String × Option String))
      (net : HttpRequest → NetOutcome),
      lookupStr (RD.get st path options net).1.headers "Authorization"
        = some ("Bearer " ++ st.rd_apitoken)
      ∧ lookupStr (RD.post st path payload net).1.headers "Authorization"
        = some ("Bearer " ++ st.rd_apitoken)
      ∧ lookupStr (RD.put st path filepath payload net).1.headers "Authorization"
        = some ("Bearer " ++ st.rd_apitoken)
      ∧ lookupStr (RD.delete st path net).1.headers "Authorization"
        = some ("Bearer " ++ st.rd_apitoken) := by
  obtain ⟨-, hheader, -⟩ := RD.init_ok_state tok env table st hinit
  intro path filepath options payload net
  refine ⟨?_, ?_, ?_, ?_⟩ <;>
    simp [RD.get, RD.post, RD.put, RD.delete, hheader, lookupStr]

/-- C4, witness: after constructing with token `"secrettoken"`, a GET
carries `Authorization: Bearer secrettoken`. -/
theorem authorization_header_always_bearer_witness :
    RD.init (some "secrettoken") none exampleTable = Except.ok exampleState
    ∧ lookupStr (RD.get exampleState "/user" []
        (fun _ => NetOutcome.timeout)).1.headers "Authorization"
      = some ("Bearer " ++ "secrettoken") := by
  have hinit : RD.init (some "secrettoken") none exampleTable
      = Except.ok exampleState := rfl
  exact ⟨hinit,
    (authorization_header_always_bearer (some "secrettoken") none exampleTable
      exampleState hinit "/user" "f" [] [] (fun _ => NetOutcome.timeout)).1⟩

/-- C5: for every response whose body is not valid JSON (so `.json()`
raises), the handler's error inspection catches the exception, logs the
generic handling-error message, and the handler still returns the raw
response object. -/
theorem handler_survives_malformed_body (st : RDState) (r : Response)
    (hbody : r.body = none) :
    (RD.handler st r).2.2 = r
    ∧ LogEntry.handlingError ∈ (RD.handler st r).2.1 := by
  refine ⟨rfl, ?_⟩
  simp [RD.handler, Response.json, hbody, Bind.bind, Except.bind]

/-- C5, witness: a 502 response with a non-JSON body is returned as-is and
the generic handling error is logged. -/
theorem handler_survives_malformed_body_witness :
    ({ status := 502, body := none } : Response).body = none
    ∧ (RD.handler exampleState { status := 502, body := none }).2.2
        = { status := 502, body := none }
    ∧ LogEntry.handlingError
        ∈ (RD.handler exampleState { status := 502, body := none }).2.1 := by
  have h := handler_survives_malformed_body exampleState
    { status := 502, body := none } rfl
  exact ⟨rfl, h.1, h.2⟩

/-- C6: `torrents.add_magnet(s)` issues a POST whose `magnet` form
parameter is the string `magnet:?xt=urn:btih:` concatenated with `s`; in
particular for `s = "ABCDEF"` it equals `magnet:?xt=urn:btih:ABCDEF`. -/
theorem add_magnet_builds_magnet_parameter (st : RDState)
    (net : HttpRequest → NetOutcome) (magnet : String) (host : Option String) :
    (RD.Torrents.add_magnet st net magnet host).1.method = "POST"
    ∧ (RD.Torrents.add_magnet st net magnet host).1.data.lookup "magnet"
        = some (some ("magnet:?xt=urn:btih:" ++ magnet))
    ∧ (RD.Torrents.add_magnet st net "ABCDEF" host).1.data.lookup "magnet"
        = some (some "magnet:?xt=urn:btih:ABCDEF") := by
  refine ⟨rfl, ?_, ?_⟩ <;>
    simp [RD.Torrents.add_magnet, RD.post, List.lookup]

/-- C7: calling a listing method with no optional arguments is the same
call as passing every optional parameter explicitly as its default `None`:
`downloads.get()` equals `downloads.get(offset=None, page=None,
limit=None)` and `torrents.get()` equals `torrents.get(offset=None,
page=None, limit=None, filter=None)`. -/
theorem listing_defaults_equal_explicit_none (st : RDState)
    (net : HttpRequest → NetOutcome) :
    RD.Downloads.get st net = RD.Downloads.get st net none none none
    ∧ RD.Torrents.get st net = RD.Torrents.get st net none none none none :=
  ⟨rfl, rfl⟩

/-- C8: no client operation modifies the configuration state: the state
observable after `handler`, after each generic operation, and after every
resource-group method (on a normal return; a propagated exception performs
no assignment either) is the state the call started from — hence token,
base URL, header and error-code table are unchanged. -/
theorem operations_preserve_configuration (st : RDState) (r : Response)
    (net : HttpRequest → NetOutcome)
    (path filepath link id hash files magnet setting_name setting_value : String)
    (options payload : List (String × Option String))
    (password remote start endDate offset page limit filter host : Option String) :
    (RD.handler st r).1 = st
    ∧ stateAfter st (RD.get st path options net).2 = st
    ∧ stateAfter st (RD.post st path payload net).2 = st
    ∧ stateAfter st (RD.put st path filepath payload net).2 = st
    ∧ stateAfter st (RD.delete st path net).2 = st
    ∧ stateAfter st (RD.System.disable_token st net).2 = st
    ∧ stateAfter st (RD.System.time st net).2 = st
    ∧ stateAfter st (RD.System.iso_time st net).2 = st
    ∧ stateAfter st (RD.User.get st net).2 = st
    ∧ stateAfter st (RD.Unrestrict.check st net link password).2 = st
    ∧ stateAfter st (RD.Unrestrict.link st net link password remote).2 = st
    ∧ stateAfter st (RD.Unrestrict.folder st net link).2 = st
    ∧ stateAfter st (RD.Unrestrict.container_file st net filepath).2 = st
    ∧ stateAfter st (RD.Unrestrict.container_link st net link).2 = st
    ∧ stateAfter st (RD.Traffic.get st net).2 = st
    ∧ stateAfter st (RD.Traffic.details st net start endDate).2 = st
    ∧ stateAfter st (RD.Streaming.transcode st net id).2 = st
    ∧ stateAfter st (RD.Streaming.media_info st net id).2 = st
    ∧ stateAfter st (RD.Downloads.get st net offset page limit).2 = st
    ∧ stateAfter st (RD.Downloads.delete st net id).2 = st
    ∧ stateAfter st (RD.Torrents.get st net offset page limit filter).2 = st
    ∧ stateAfter st (RD.Torrents.info st net id).2 = st
    ∧ stateAfter st (RD.Torrents.instant_availability st net hash).2 = st
    ∧ stateAfter st (RD.Torrents.active_count st net).2 = st
    ∧ stateAfter st (RD.Torrents.available_hosts st net).2 = st
    ∧ stateAfter st (RD.Torrents.add_file st net filepath host).2 = st
    ∧ stateAfter st (RD.Torrents.add_magnet st net magnet host).2 = st
    ∧ stateAfter st (RD.Torrents.select_files st net id files).2 = st
    ∧ stateAfter st (RD.Torrents.delete st net id).2 = st
    ∧ stateAfter st (RD.Hosts.get st net).2 = st
    ∧ stateAfter st (RD.Hosts.status st net).2 = st
    ∧ stateAfter st (RD.Hosts.regex st net).2 = st
    ∧ stateAfter st (RD.Hosts.regex_folder st net).2 = st
    ∧ stateAfter st (RD.Hosts.domains st net).2 = st
    ∧ stateAfter st (RD.Settings.get st net).2 = st
    ∧ stateAfter st (RD.Settings.update st net setting_name setting_value).2 = st
    ∧ stateAfter st (RD.Settings.convert_points st net).2 = st
    ∧ stateAfter st (RD.Settings.change_password st net).2 = st
    ∧ stateAfter st (RD.Settings.avatar_file st net filepath).2 = st
    ∧ stateAfter st (RD.Settings.avatar_delete st net).2 = st :=
  ⟨rfl,
   stateAfter_get st _ _ net,
   stateAfter_post st _ _ net,
   stateAfter_put st _ _ _ net,
   stateAfter_delete st _ net,
   stateAfter_get st _ _ net,
   stateAfter_get st _ _ net,
   stateAfter_get st _ _ net,
   stateAfter_decode st _ (stateAfter_get st _ _ net),
   stateAfter_decode st _ (stateAfter_post st _ _ net),
   stateAfter_decode st _ (stateAfter_post st _ _ net),
   stateAfter_post st _ _ net,
   stateAfter_put st _ _ _ net,
   stateAfter_post st _ _ net,
   stateAfter_decode st _ (stateAfter_get st _ _ net),
   stateAfter_decode st _ (stateAfter_get st _ _ net),
   stateAfter_decode st _ (stateAfter_get st _ _ net),
   stateAfter_decode st _ (stateAfter_get st _ _ net),
   stateAfter_get st _ _ net,
   stateAfter_delete st _ net,
   stateAfter_get st _ _ net,
   stateAfter_get st _ _ net,
   stateAfter_get st _ _ net,
   stateAfter_get st _ _ net,
   stateAfter_get st _ _ net,
   stateAfter_put st _ _ _ net,
   stateAfter_post st _ _ net,
   stateAfter_post st _ _ net,
   stateAfter_delete st _ net,
   stateAfter_get st _ _ net,
   stateAfter_get st _ _ net,
   stateAfter_get st _ _ net,
   stateAfter_get st _ _ net,
   stateAfter_get st _ _ net,
   stateAfter_get st _ _ net,
   stateAfter_post st _ _ net,
   stateAfter_post st _ _ net,
   stateAfter_post st _ _ net,
   stateAfter_put st _ _ _ net,
   stateAfter_delete st _ net⟩

/-- C9: `RD.handler` returns exactly the response object it received, for
every client state and every response (any status, any body). -/
theorem handler_identity_on_response (st : RDState) (r : Response) :
    (RD.handler st r).2.2 = r := rfl

/-- C10: when the network returns a response whose body is not valid JSON,
every resource-group method that ends in `.json()` (`user.get`,
`unrestrict.check`, `unrestrict.link`, `traffic.get`, `traffic.details`,
`streaming.transcode`, `streaming.media_info`) propagates the decode
exception to the caller, while methods returning the raw response (here
`downloads.get` and `torrents.info`) return normally with the raw
response. -/
theorem json_decoding_methods_raise_on_invalid_body (st : RDState)
    (r : Response) (hbody : r.body = none) (link id : String)
    (password remote start endDate : Option String) :
    (RD.User.get st (fun _ => NetOutcome.ok r)).2 = Except.error Exc.jsonDecode
    ∧ (RD.Unrestrict.check st (fun _ => NetOutcome.ok r) link password).2
        = Except.error Exc.jsonDecode
    ∧ (RD.Unrestrict.link st (fun _ => NetOutcome.ok r) link password remote).2
        = Except.error Exc.jsonDecode
    ∧ (RD.Traffic.get st (fun _ => NetOutcome.ok r)).2
        = Except.error Exc.jsonDecode
    ∧ (RD.Traffic.details st (fun _ => NetOutcome.ok r) start endDate).2
        = Except.error Exc.jsonDecode
    ∧ (RD.Streaming.transcode st (fun _ => NetOutcome.ok r) id).2
        = Except.error Exc.jsonDecode
    ∧ (RD.Streaming.media_info st (fun _ => NetOutcome.ok r) id).2
        = Except.error Exc.jsonDecode
    ∧ (RD.Downloads.get st (fun _ => NetOutcome.ok r)).2
        = Except.ok (RD.handler st r)
    ∧ (RD.Torrents.info st (fun _ => NetOutcome.ok r) id).2
        = Except.ok (RD.handler st r) := by
  refine ⟨?_, ?_, ?_, ?_, ?_, ?_, ?_, rfl, rfl⟩ <;>
    simp [RD.User.get, RD.Unrestrict.check, RD.Unrestrict.link, RD.Traffic.get,
      RD.Traffic.details, RD.Streaming.transcode, RD.Streaming.media_info,
      decodeResult, RD.get, RD.post, Response.json, hbody,
      handler_response_component]

/-- C10, witness: with a non-JSON 200 response, `user.get` raises the
decode error. -/
theorem json_decoding_methods_raise_on_invalid_body_witness :
    ({ status := 200, body := none } : Response).body = none
    ∧ (RD.User.get exampleState
        (fun _ => NetOutcome.ok { status := 200, body := none })).2
      = Except.error Exc.jsonDecode := by
  have h := json_decoding_methods_raise_on_invalid_body exampleState
    { status := 200, body := none } rfl "http://a" "MAGNETID" none none none none
  exact ⟨rfl, h.1⟩
